import Mathlib

/-!
Shallow embedding of the cl-hive-archon service core
(src/modules/archon_service.py and its command facade src/cl-hive-archon.py).

Modelling conventions:
* SQLite rows become Lean structures; NULL text columns become the empty
  string exactly as the Python code coerces them (`x or ""`).
* The store (tables archon_identity, archon_bindings, archon_polls,
  archon_votes created by ArchonStore.initialize in the source) becomes the
  `Store` structure; the schema defines no other table.
* Machine-supplied nondeterminism (clock, rpc results, uuid4, SHA-256
  digests, gateway answers) is threaded through an `Env` oracle record; the
  digest and the signer are oracle functions of their input string, so no
  property of the hash is assumed anywhere.
* `options_json` is stored in the poll row as the decoded list of option
  strings; the source stores `json.dumps(cleaned_options)` and decodes it
  with `json.loads` on every read, a round trip the model collapses.
* Python dict results become per-method inductive result types whose
  constructors carry exactly the keys the source puts into the dict.
* fallible paths return the error constructor of the result type; the
  `try/except` around `add_vote` in the source turns an IntegrityError into
  the boolean `false`, so the model's `addVote` returns `Bool` directly.
-/

/-- Row of the singleton table archon_identity. -/
structure Identity where
  did : String
  governance_tier : String
  status : String
  source : String
  gateway_url : String
  created_at : Int
  updated_at : Int
deriving Repr, DecidableEq

/-- Row of archon_bindings. -/
structure Binding where
  binding_id : String
  did : String
  binding_type : String
  subject : String
  attestation_json : String
  signature : String
  created_at : Int
  updated_at : Int
deriving Repr, DecidableEq

/-- Row of archon_polls; `options` holds the decoded `options_json` list. -/
structure Poll where
  poll_id : String
  remote_poll_id : String
  poll_type : String
  title : String
  options : List String
  metadata_json : String
  created_by : String
  deadline : Int
  status : String
  created_at : Int
  updated_at : Int
deriving Repr, DecidableEq

/-- Row of archon_votes. -/
structure Vote where
  vote_id : String
  poll_id : String
  voter_id : String
  choice : String
  reason : String
  voted_at : Int
  signature : String
deriving Repr, DecidableEq

/-- The whole SQLite database created by ArchonStore.initialize: exactly the
four tables archon_identity (a singleton row), archon_bindings, archon_polls
and archon_votes.  The schema in src/modules/archon_service.py declares no
outbox table. -/
structure Store where
  identity : Option Identity
  bindings : List Binding
  polls : List Poll
  votes : List Vote
deriving Repr, DecidableEq

/-- The empty database right after initialize. -/
def Store.empty : Store := ⟨none, [], [], []⟩

namespace ArchonStore

/-- ArchonStore.get_identity. -/
def getIdentity (s : Store) : Option Identity := s.identity

/-- ArchonStore.upsert_identity: INSERT OR REPLACE of the singleton row,
preserving created_at of an existing row. -/
def upsertIdentity (s : Store) (did governance_tier status source gateway_url : String)
    (now_ts : Int) : Store :=
  let created_at := match s.identity with
    | some i => i.created_at
    | none => now_ts
  { s with identity := some ⟨did, governance_tier, status, source, gateway_url,
      created_at, now_ts⟩ }

/-- ArchonStore.update_governance_tier: UPDATE of the singleton row. -/
def updateGovernanceTier (s : Store) (governance_tier : String) (now_ts : Int) : Store :=
  { s with identity := s.identity.map (fun i =>
      { i with governance_tier := governance_tier, updated_at := now_ts }) }

/-- ArchonStore.delete_bindings_for_did: DELETE returning the count. -/
def deleteBindingsForDid (s : Store) (did : String) : Int × Store :=
  let kept := s.bindings.filter (fun b => b.did ≠ did)
  ((s.bindings.length - kept.length : Int), { s with bindings := kept })

/-- ArchonStore.get_poll: lookup by primary key poll_id. -/
def getPoll (s : Store) (poll_id : String) : Option Poll :=
  s.polls.find? (fun p => p.poll_id == poll_id)

/-- ArchonStore.set_poll_status: UPDATE status and updated_at by poll_id. -/
def setPollStatus (s : Store) (poll_id status : String) (now_ts : Int) : Store :=
  { s with polls := s.polls.map (fun p =>
      if p.poll_id == poll_id then { p with status := status, updated_at := now_ts } else p) }

/-- Predicate of the WHERE clause of complete_expired_polls. -/
def expiredActive (now_ts : Int) (p : Poll) : Bool :=
  p.status == "active" && decide (p.deadline ≤ now_ts)

/-- ArchonStore.complete_expired_polls: transition expired active polls to
completed, returning the number of updated rows. -/
def completeExpiredPolls (s : Store) (now_ts : Int) : Int × Store :=
  let count := (s.polls.filter (expiredActive now_ts)).length
  ((count : Int),
   { s with polls := s.polls.map (fun p =>
       if expiredActive now_ts p then { p with status := "completed", updated_at := now_ts }
       else p) })

/-- ArchonStore.count_polls_by_status. -/
def countPollsByStatus (s : Store) (status : String) : Int :=
  ((s.polls.filter (fun p => p.status == status)).length : Int)

/-- ArchonStore.count_total_polls. -/
def countTotalPolls (s : Store) : Int := (s.polls.length : Int)

/-- ArchonStore.list_votes_for_poll; the source orders by voted_at ASC, the
model keeps insertion order (no claim depends on the row order). -/
def listVotesForPoll (s : Store) (poll_id : String) : List Vote :=
  s.votes.filter (fun v => v.poll_id == poll_id)

/-- ArchonStore.add_vote: INSERT OR IGNORE against the UNIQUE(poll_id,
voter_id) constraint and the vote_id primary key; returns whether a row was
inserted, and never raises (IntegrityError is caught and mapped to false). -/
def addVote (s : Store) (vote_id poll_id voter_id choice reason : String)
    (voted_at : Int) (signature : String) : Bool × Store :=
  if s.votes.any (fun v => (v.poll_id == poll_id && v.voter_id == voter_id)
      || v.vote_id == vote_id) then
    (false, s)
  else
    (true, { s with votes := s.votes ++ [⟨vote_id, poll_id, voter_id, choice, reason,
        voted_at, signature⟩] })

/-- ArchonStore.count_total_votes. -/
def countTotalVotes (s : Store) : Int := (s.votes.length : Int)

/-- Descending insertion of a vote by voted_at (for ORDER BY voted_at DESC). -/
def insertByVotedAtDesc (v : Vote) : List Vote → List Vote
  | [] => [v]
  | w :: ws => if w.voted_at ≤ v.voted_at then v :: w :: ws
               else w :: insertByVotedAtDesc v ws

/-- Sort votes by voted_at descending (ORDER BY voted_at DESC). -/
def sortByVotedAtDesc (l : List Vote) : List Vote := l.foldr insertByVotedAtDesc []

/-- ArchonStore.list_votes_for_voter: the votes of a voter joined with their
poll (the INNER JOIN drops votes without a poll row), ordered voted_at DESC,
LIMIT `limit`.  The joined poll columns of the SELECT are dropped by the
model; only the vote rows matter to the claims. -/
def listVotesForVoter (s : Store) (voter_id : String) (limit : Int) : List Vote :=
  (sortByVotedAtDesc (s.votes.filter (fun v =>
      v.voter_id == voter_id && s.polls.any (fun p => p.poll_id == v.poll_id)))).take
    limit.toNat

/-- Predicate of the WHERE clause of prune_completed_polls. -/
def completedBefore (before_ts : Int) (p : Poll) : Bool :=
  p.status == "completed" && decide (p.deadline < before_ts)

/-- ArchonStore.prune_completed_polls: delete the votes of doomed polls
first, then the polls themselves, returning the number of polls deleted. -/
def pruneCompletedPolls (s : Store) (before_ts : Int) : Int × Store :=
  let doomed := s.polls.filter (completedBefore before_ts)
  let doomedIds := doomed.map (fun p => p.poll_id)
  ((doomed.length : Int),
   { s with
     votes := s.votes.filter (fun v => !(doomedIds.contains v.poll_id)),
     polls := s.polls.filter (fun p => !(completedBefore before_ts p)) })

end ArchonStore

/-! Module-level validators of src/modules/archon_service.py.  String
helpers used below are reimplemented over the character list so that they
reduce definitionally (the library versions iterate over byte positions). -/

/-- Whitespace strip on both ends, as Python's str.strip() with no argument
and Lean's String.trim. -/
def strTrim (s : String) : String :=
  ((s.toList.dropWhile Char.isWhitespace).reverse.dropWhile
    Char.isWhitespace).reverse.asString

/-- Prefix test, as Python's str.startswith. -/
def strStartsWith (s pre : String) : Bool :=
  s.toList.take pre.toList.length == pre.toList

/-- Test for an ASCII hexadecimal digit. -/
def isHexChar (c : Char) : Bool :=
  c.isDigit || ('a' ≤ c && c ≤ 'f') || ('A' ≤ c && c ≤ 'F')

/-- Models `_is_hex(value, expected_len)`: length check plus parseability in
base 16.  Python's int(value, 16) additionally tolerates surrounding
whitespace, a sign, a 0x prefix and inner underscores; the model keeps the
plain all-hex-digits case, the only one any claim exercises. -/
def isHex (value : String) (expected_len : Nat) : Bool :=
  value.length == expected_len && value.toList.all isHexChar

/-- Models `_is_valid_nostr_pubkey`. -/
def isValidNostrPubkey (value : String) : Bool := isHex value 64

/-- Models `_is_valid_cln_pubkey`. -/
def isValidClnPubkey (value : String) : Bool :=
  if value.length ≠ 66 || (value.take 2 ≠ "02" && value.take 2 ≠ "03") then false
  else isHex value 66

/-- Models `_is_valid_did`. -/
def isValidDid (value : String) : Bool :=
  let did := strTrim value
  if did.length < 12 || did.length > 128 then false
  else if !(strStartsWith did "did:cid:") then false
  else
    let suffix := did.drop 8
    if suffix.isEmpty then false
    else suffix.toList.all (fun ch => ch.isAlphanum || ch == '-' || ch == '.'
      || ch == '_' || ch == ':')

/-! URL parsing, modelling urllib.parse.urlparse as the service uses it:
only the scheme, netloc and hostname attributes are read. -/

/-- Character allowed after the first position of a URL scheme. -/
def schemeChar (c : Char) : Bool :=
  c.isAlphanum || c == '+' || c == '-' || c == '.'

/-- The scheme/netloc/hostname attributes of a parsed URL; a missing
component is the empty string (urlparse yields "" or None there). -/
structure ParsedUrl where
  scheme : String
  netloc : String
  hostname : String
deriving Repr, DecidableEq

/-- Splits the leading `scheme:` off a URL character list, if the part
before the first colon is a well-formed scheme. -/
def splitScheme (cs : List Char) : Option (List Char × List Char) :=
  let pre := cs.takeWhile (fun c => c ≠ ':')
  let post := cs.dropWhile (fun c => c ≠ ':')
  match post with
  | ':' :: rest =>
    match pre with
    | [] => none
    | c :: cs' => if c.isAlpha && cs'.all schemeChar then some (pre, rest) else none
  | _ => none

/-- Models urlparse for the attributes the service reads.  The hostname is
the netloc with any userinfo (before the last "@") and any ":port" suffix
stripped, lowercased; bracketed IPv6 hosts keep the text inside brackets. -/
def urlparse (url : String) : ParsedUrl :=
  let cs := url.toList
  let (scheme, rest) := match splitScheme cs with
    | some (s, r) => ((s.map Char.toLower).asString, r)
    | none => ("", cs)
  let netloc : List Char :=
    match rest with
    | '/' :: '/' :: r => r.takeWhile (fun c => c ≠ '/' && c ≠ '?' && c ≠ '#')
    | _ => []
  let afterUser := ((netloc.reverse.takeWhile (fun c => c ≠ '@'))).reverse
  let host : List Char :=
    match afterUser with
    | '[' :: r => '[' :: (r.takeWhile (fun c => c ≠ ']')) ++ [']']
    | _ => afterUser.takeWhile (fun c => c ≠ ':')
  { scheme := scheme
    netloc := netloc.asString
    hostname := (host.map Char.toLower).asString }

/-! Oracle environment and service configuration. -/

/-- Per-call oracle for everything the service reads from the outside world:
the injected clock (held constant within one call), rpc.getinfo()["id"]
(none encodes a missing rpc handle or a raised exception),
rpc.signmessage(payload)["zbase"] as a function of the payload (none encodes
a raised exception), uuid.uuid4(), hashlib.sha256(·).hexdigest() as an
opaque oracle function, and the gateway answers (outer none encodes a raised
exception, inner none a response without the expected field). -/
structure Env where
  now : Int
  getinfo_id : Option String
  sign : String → Option String
  uuid : String
  digest : String → String
  gateway_provision : Option (Option String)
  gateway_submit : Option Bool

/-- Configuration captured by ArchonService.__init__ after its gateway-URL
downgrade logic ran: the stripped gateway_url, the possibly downgraded
network_enabled flag, min_governance_bond_sats (already clamped to ≥ 1), and
whether a gateway client object was constructed. -/
structure Config where
  gateway_url : String
  network_enabled : Bool
  min_governance_bond_sats : Int
  has_gateway_client : Bool
deriving Repr, DecidableEq

namespace ArchonService

/-- ArchonService.MAX_LABEL_LEN. -/
def MAX_LABEL_LEN : Nat := 120
/-- ArchonService.MAX_REASON_LEN. -/
def MAX_REASON_LEN : Nat := 500
/-- ArchonService.MAX_TOTAL_POLLS. -/
def MAX_TOTAL_POLLS : Int := 5000
/-- ArchonService.MAX_TOTAL_VOTES. -/
def MAX_TOTAL_VOTES : Int := 50000
/-- ArchonService.VALID_GOVERNANCE_TIERS. -/
def VALID_GOVERNANCE_TIERS : List String := ["basic", "governance"]

/-- ArchonService._is_valid_gateway_url: any http or https URL with a
nonempty netloc and hostname passes; the host is not otherwise inspected. -/
def isValidGatewayUrl (url : String) : Bool :=
  if (strTrim url).isEmpty then false
  else
    let parsed := urlparse url
    if parsed.scheme ≠ "https" && parsed.scheme ≠ "http" then false
    else if parsed.netloc.isEmpty then false
    else if parsed.hostname.isEmpty then false
    else true

/-- Gateway-related part of ArchonService.__init__: strips the URL, then
downgrades network_enabled (and blanks the URL) when the URL fails
validation, and records whether a gateway client is constructed. -/
def initConfig (gateway_url : String) (network_enabled : Bool)
    (min_governance_bond_sats : Int) : Config :=
  let gw := strTrim gateway_url
  let ne := network_enabled
  let (ne, gw) := if ne && !(isValidGatewayUrl gw) then (false, "") else (ne, gw)
  { gateway_url := gw
    network_enabled := ne
    min_governance_bond_sats := max 1 min_governance_bond_sats
    has_gateway_client := ne && !gw.isEmpty }

/-- ArchonService._our_node_pubkey: the getinfo id when it is a valid CLN
pubkey, else the empty string. -/
def ourNodePubkey (env : Env) : String :=
  match env.getinfo_id with
  | some pubkey => if isValidClnPubkey pubkey then pubkey else ""
  | none => ""

/-- ArchonService._sign_message with required=True: the zbase signature when
the rpc call succeeds with a nonempty signature, none when it raises or the
signature is empty (both raise RuntimeError in the source, which the callers
turn into an error result). -/
def signRequired (env : Env) (payload : String) : Option String :=
  match env.sign payload with
  | some sig => if sig.isEmpty then none else some sig
  | none => none

/-- ArchonService._generate_local_did. -/
def generateLocalDid (env : Env) (node_pubkey label : String) : String :=
  "did:cid:" ++ (env.digest
    (node_pubkey ++ ":" ++ label ++ ":" ++ toString env.now ++ ":" ++ env.uuid)).take 48

/-- ArchonService._voter_id: the stored identity DID when nonempty, else the
node pubkey, else "local-node". -/
def voterId (env : Env) (s : Store) : String :=
  let did := match s.identity with
    | some i => i.did
    | none => ""
  if !did.isEmpty then did
  else
    let node_pubkey := ourNodePubkey env
    if !node_pubkey.isEmpty then node_pubkey else "local-node"

/-- ArchonService._require_governance: the (error, hint) pair when the
identity is missing or below governance tier. -/
def requireGovernance (s : Store) : Option (String × String) :=
  match s.identity with
  | none => some ("identity not provisioned", "run hive-archon-provision first")
  | some i =>
    if i.governance_tier ≠ "governance" then
      some ("governance tier required",
        "run hive-archon-upgrade target_tier=governance bond_sats=50000")
    else none

/-- ArchonService._refresh_poll_state: an active poll past its deadline is
written back as completed and re-read. -/
def refreshPollState (env : Env) (s : Store) (poll : Poll) : Poll × Store :=
  if poll.status == "active" && decide (poll.deadline ≤ env.now) then
    let s' := ArchonStore.setPollStatus s poll.poll_id "completed" env.now
    match ArchonStore.getPoll s' poll.poll_id with
    | some updated => (updated, s')
    | none => (poll, s')
  else (poll, s)

end ArchonService

/-! Result types: one constructor per distinct dict shape the source builds. -/

/-- Result dict of ArchonService.provision. -/
inductive ProvisionResult
  | error (msg : String)
  | okAlready (did governance_tier source gateway_url : String)
  | okNew (did source governance_tier gateway_url : String)
deriving Repr, DecidableEq

/-- Truth of the "ok" key of a provision result. -/
def ProvisionResult.isOk : ProvisionResult → Bool
  | .error _ => false
  | _ => true

/-- Truth of the "already_provisioned" key of a provision result. -/
def ProvisionResult.alreadyProvisioned : ProvisionResult → Bool
  | .okAlready .. => true
  | _ => false

/-- The "did" key of a provision result, when present. -/
def ProvisionResult.didOf : ProvisionResult → Option String
  | .okAlready d _ _ _ => some d
  | .okNew d _ _ _ => some d
  | .error _ => none

/-- The "governance_tier" key of a provision result, when present. -/
def ProvisionResult.tierOf : ProvisionResult → Option String
  | .okAlready _ t _ _ => some t
  | .okNew _ _ t _ => some t
  | .error _ => none

/-- The "source" key of a provision result, when present. -/
def ProvisionResult.sourceOf : ProvisionResult → Option String
  | .okAlready _ _ src _ => some src
  | .okNew _ src _ _ => some src
  | .error _ => none

/-- Result dict of ArchonService.upgrade. -/
inductive UpgradeResult
  | errorTier (msg : String) (valid_tiers : List String)
  | errorHint (msg hint : String)
  | errorBond (msg : String) (required_bond_sats : Int)
  | ok (did governance_tier : String)
deriving Repr, DecidableEq

/-- Truth of the "ok" key of an upgrade result. -/
def UpgradeResult.isOk : UpgradeResult → Bool
  | .ok _ _ => true
  | _ => false

/-- Result dict of ArchonService.vote. -/
inductive VoteResult
  | error (msg : String)
  | errorHint (msg hint : String)
  | errorStatus (msg status : String)
  | errorChoices (msg : String) (valid_choices : List String)
  | ok (vote_id poll_id voter_id choice : String) (remote_vote_sent : Bool)
deriving Repr, DecidableEq

/-- Truth of the "ok" key of a vote result. -/
def VoteResult.isOk : VoteResult → Bool
  | .ok .. => true
  | _ => false

/-- The "voter_id" key of a vote result, when present. -/
def VoteResult.voterIdOf : VoteResult → Option String
  | .ok _ _ v _ _ => some v
  | _ => none

/-- The poll header sub-dict of a poll_status result. -/
structure PollHeader where
  poll_id : String
  remote_poll_id : String
  poll_type : String
  title : String
  created_by : String
  deadline : Int
  status : String
deriving Repr, DecidableEq

/-- Result dict of ArchonService.poll_status. -/
inductive PollStatusResult
  | error (msg : String)
  | ok (poll : PollHeader) (tally : List (String × Int)) (vote_count : Int)
      (voters : List String)
deriving Repr, DecidableEq

/-- The "status" field of the poll header of a poll_status result. -/
def PollStatusResult.statusOf : PollStatusResult → Option String
  | .ok h _ _ _ => some h.status
  | .error _ => none

/-- Result dict of ArchonService.my_votes. -/
inductive MyVotesResult
  | error (msg : String)
  | ok (voter_id : String) (count : Int) (votes : List Vote)
deriving Repr, DecidableEq

/-- Truth of the "ok" key of a my_votes result. -/
def MyVotesResult.isOk : MyVotesResult → Bool
  | .ok .. => true
  | _ => false

/-- The "votes" key of a my_votes result, when present. -/
def MyVotesResult.votesOf : MyVotesResult → List Vote
  | .ok _ _ vs => vs
  | .error _ => []

/-- Result dict of ArchonService.prune. -/
inductive PruneResult
  | error (msg : String)
  | ok (polls_completed polls_removed retention_days : Int)
deriving Repr, DecidableEq

namespace ArchonService

/-- ArchonService.provision.  The label argument is a string by type (the
isinstance guard of the source cannot fire); gateway provisioning is only
attempted when network is enabled and a client exists, a raised exception or
a DID-less answer leaving the local fallback to run.  The source logs the
gateway failure and falls through: nothing else happens on that path. -/
def provision (cfg : Config) (env : Env) (s : Store) (force : Bool)
    (label : String) : ProvisionResult × Store :=
  let label := strTrim label
  if label.length > MAX_LABEL_LEN then
    (.error "label too long (max 120 chars)", s)
  else
    match s.identity, force with
    | some i, false =>
      (.okAlready i.did i.governance_tier i.source i.gateway_url, s)
    | identity, _ =>
      let node_pubkey := ourNodePubkey env
      let gatewayDid : String :=
        if cfg.network_enabled && cfg.has_gateway_client then
          match env.gateway_provision with
          | some (some d) => d
          | some none => ""
          | none => ""
        else ""
      let source := if !gatewayDid.isEmpty then "archon-gateway" else "local-fallback"
      let did := if gatewayDid.isEmpty then generateLocalDid env node_pubkey label
                 else gatewayDid
      let governance_tier := match identity with
        | some i => if i.governance_tier.isEmpty then "basic" else i.governance_tier
        | none => "basic"
      let s := match identity with
        | some i =>
          if !i.did.isEmpty && i.did ≠ did then
            (ArchonStore.deleteBindingsForDid s i.did).2
          else s
        | none => s
      let gateway_url := if source == "archon-gateway" then cfg.gateway_url else ""
      let s := ArchonStore.upsertIdentity s did governance_tier "active" source
        gateway_url env.now
      (.okNew did source governance_tier gateway_url, s)

/-- ArchonService.upgrade.  The bond_sats argument reaches the method as an
integer (the command facade parses it with _parse_int); the method checks it
only against min_governance_bond_sats and never consults the node's channel
balance: no rpc call appears in its body. -/
def upgrade (cfg : Config) (env : Env) (s : Store) (target_tier : String)
    (bond_sats : Int) : UpgradeResult × Store :=
  if !(VALID_GOVERNANCE_TIERS.contains target_tier) then
    (.errorTier "invalid target_tier" ["basic", "governance"], s)
  else
    match s.identity with
    | none => (.errorHint "identity not provisioned" "run hive-archon-provision", s)
    | some _ =>
      if target_tier == "governance" && decide (bond_sats < cfg.min_governance_bond_sats) then
        (.errorBond "insufficient bond for governance tier" cfg.min_governance_bond_sats, s)
      else
        let s' := ArchonStore.updateGovernanceTier s target_tier env.now
        match s'.identity with
        | some i => (.ok i.did i.governance_tier, s')
        | none => (.ok "" target_tier, s')

/-- Canonical JSON of the ballot payload (sorted keys, no whitespace).  The
string is only ever passed to the signing oracle; the model elides the
escaping json.dumps would apply inside string values. -/
def voteCanonical (poll_id voter_id choice reason : String) (voted_at : Int) : String :=
  "\x7b\"choice\":\"" ++ choice ++ "\",\"poll_id\":\"" ++ poll_id ++
    "\",\"reason\":\"" ++ reason ++ "\",\"voted_at\":" ++ toString voted_at ++
    ",\"voter_id\":\"" ++ voter_id ++ "\"\x7d"

/-- ArchonService.vote, following the source's check order: governance tier,
vote capacity, poll_id, choice, reason, poll lookup, expiry refresh, active
status, choice membership, signing, INSERT-OR-IGNORE, optional remote leg. -/
def vote (cfg : Config) (env : Env) (s : Store) (poll_id choice reason : String) :
    VoteResult × Store :=
  match requireGovernance s with
  | some (msg, hint) => (.errorHint msg hint, s)
  | none =>
  if ArchonStore.countTotalVotes s ≥ MAX_TOTAL_VOTES then
    (.error "vote capacity reached", s)
  else if poll_id.isEmpty then
    (.error "poll_id is required", s)
  else
  let choice := strTrim choice
  if choice.isEmpty then
    (.error "choice is required", s)
  else
  let reason := strTrim reason
  if reason.length > MAX_REASON_LEN then
    (.error "reason too long (max 500 chars)", s)
  else
  match ArchonStore.getPoll s poll_id with
  | none => (.error "poll not found", s)
  | some poll =>
  let (poll, s) := refreshPollState env s poll
  if poll.status ≠ "active" then
    (.errorStatus "poll is not active" poll.status, s)
  else
  let options := poll.options
  if !(options.contains choice) then
    (.errorChoices "invalid choice" options, s)
  else
  let voter_id := voterId env s
  let voted_at := env.now
  let canonical := voteCanonical poll_id voter_id choice reason voted_at
  match signRequired env canonical with
  | none => (.error "vote signing failed", s)
  | some signature =>
  let vote_id := (env.digest
    (poll_id ++ ":" ++ voter_id ++ ":" ++ choice ++ ":" ++ toString voted_at)).take 32
  let (inserted, s) := ArchonStore.addVote s vote_id poll_id voter_id choice reason
    voted_at signature
  if !inserted then
    (.error "vote already exists for this voter and poll", s)
  else
  let remote_poll_id := poll.remote_poll_id
  let remote_vote_sent :=
    if cfg.network_enabled && cfg.has_gateway_client && !remote_poll_id.isEmpty then
      match env.gateway_submit with
      | some sent => sent
      | none => false
    else false
  (.ok vote_id poll_id voter_id choice remote_vote_sent, s)

/-- Tally update step: dict.get(choice, 0) + 1 over an insertion-ordered
association list. -/
def bumpTally (t : List (String × Int)) (k : String) : List (String × Int) :=
  if t.any (fun kv => kv.1 == k) then
    t.map (fun kv => if kv.1 == k then (kv.1, kv.2 + 1) else kv)
  else t ++ [(k, 1)]

/-- Initial tally: one zero entry per option, first occurrence kept (the
source builds a dict comprehension over the options). -/
def initialTally (options : List String) : List (String × Int) :=
  options.foldl (fun t o => if t.any (fun kv => kv.1 == o) then t else t ++ [(o, 0)]) []

/-- ArchonService.poll_status: lookup, expiry refresh, tally of the votes
per choice, voter list. -/
def pollStatus (env : Env) (s : Store) (poll_id : String) : PollStatusResult × Store :=
  if poll_id.isEmpty then (.error "poll_id is required", s)
  else
  match ArchonStore.getPoll s poll_id with
  | none => (.error "poll not found", s)
  | some poll =>
  let (poll, s) := refreshPollState env s poll
  let options := poll.options
  let votes := ArchonStore.listVotesForPoll s poll_id
  let tally := votes.foldl (fun t v => bumpTally t v.choice) (initialTally options)
  (.ok ⟨poll.poll_id, poll.remote_poll_id, poll.poll_type, poll.title,
      poll.created_by, poll.deadline, poll.status⟩
    tally (votes.length : Int) (votes.map (fun v => v.voter_id)), s)

/-- Python value shapes the command surface can deliver for the my_votes
limit argument; Python's isinstance(·, int) also accepts bool. -/
inductive PyVal
  | int (n : Int)
  | bool (b : Bool)
  | str (s : String)
  | noneVal
deriving Repr, DecidableEq

/-- Models isinstance(value, int) (true for Python bools as well). -/
def PyVal.isInstInt : PyVal → Bool
  | .int _ => true
  | .bool _ => true
  | _ => false

/-- Numeric value of an int-like Python value. -/
def PyVal.toInt : PyVal → Int
  | .int n => n
  | .bool b => if b then 1 else 0
  | _ => 0

/-- ArchonService.my_votes: reject a non-int or non-positive limit, clamp
anything above 500 down to 500, and list the node's own votes. -/
def myVotes (env : Env) (s : Store) (limit : PyVal) : MyVotesResult :=
  if !limit.isInstInt || limit.toInt ≤ 0 then
    .error "limit must be positive"
  else
    let l := if limit.toInt > 500 then 500 else limit.toInt
    let voter_id := voterId env s
    let votes := ArchonStore.listVotesForVoter s voter_id l
    .ok voter_id (votes.length : Int) votes

/-- ArchonService.prune: validate retention_days, transition expired active
polls, then delete completed polls older than now minus the retention
window together with their votes. -/
def prune (env : Env) (s : Store) (retention_days : Int) : PruneResult × Store :=
  if retention_days < 1 then
    (.error "retention_days must be a positive integer", s)
  else
    let now_ts := env.now
    let (completed, s) := ArchonStore.completeExpiredPolls s now_ts
    let cutoff := now_ts - retention_days * 86400
    let (removed, s) := ArchonStore.pruneCompletedPolls s cutoff
    (.ok completed removed retention_days, s)

end ArchonService

/-! Method inventory of the command facade, transcribed from the source for
the propagation-policy claim. -/

/-- Names of the methods defined on class ArchonService in
src/modules/archon_service.py (underscore-prefixed helpers included). -/
def archonServiceMethods : List String :=
  ["__init__", "_log", "_now", "_is_valid_gateway_url", "_our_node_pubkey",
   "_sign_message", "_resolve_did", "_generate_local_did", "_build_attestation",
   "_require_governance", "provision", "bind_nostr", "bind_cln", "status",
   "upgrade", "_normalize_poll_options", "_refresh_poll_state", "poll_create",
   "poll_status", "_voter_id", "vote", "my_votes", "prune"]

/-- Service methods invoked by the registered RPC handlers of
src/cl-hive-archon.py, in registration order. -/
def pluginServiceCalls : List String :=
  ["provision", "bind_nostr", "bind_cln", "status", "upgrade", "poll_create",
   "poll_status", "vote", "my_votes", "sign_message", "prune", "process_outbox"]

/-! Concrete fixtures used by the evaluation theorems below. -/

/-- A valid compressed CLN pubkey, as the test suite's mock node uses. -/
def pubkeyFix : String :=
  "02abababababababababababababababababababababababababababababababab"

/-- A provisioned governance-tier identity row. -/
def identityFix : Identity :=
  ⟨"did:cid:0a1b2c3d4e5f60718293a4b5c6d7e8f90a1b2c3d", "governance", "active",
    "local-fallback", "", 100, 100⟩

/-- An active poll with a future deadline relative to envFix.now = 1000. -/
def pollFix : Poll :=
  ⟨"poll-1", "", "config", "Adjust fee floor", ["yes", "no"], "{}",
    "did:cid:0a1b2c3d4e5f60718293a4b5c6d7e8f90a1b2c3d", 2000, "active", 100, 100⟩

/-- A database holding the governance identity and the active poll. -/
def storeFix : Store := ⟨some identityFix, [], [pollFix], []⟩

/-- An environment with a healthy rpc (valid pubkey, signing works), a fixed
clock and uuid, the identity digest as hash oracle, and a gateway whose
provision call raises (connection refused). -/
def envFix : Env :=
  { now := 1000
    getinfo_id := some pubkeyFix
    sign := fun _ => some "zbase-sig"
    uuid := "uuid-1"
    digest := fun s => s
    gateway_provision := none
    gateway_submit := none }

/-- Offline configuration, as the dark-launch default. -/
def cfgOffline : Config := ArchonService.initConfig "" false 50000

/-- Network-enabled configuration against a local gateway, as in the test
suite's outbox scenario (http://localhost:9999, unreachable). -/
def cfgNetFix : Config := ArchonService.initConfig "http://localhost:9999" true 50000

/-- Same environment but the gateway answers without a DID instead of
raising. -/
def envGwNoDid : Env := { envFix with gateway_provision := some none }

/-- A basic-tier variant of the provisioned identity. -/
def storeBasicFix : Store :=
  ⟨some { identityFix with governance_tier := "basic" }, [], [], []⟩

set_option maxRecDepth 1000000 in
/-- C1: the claim says the voter_id persisted in the vote row and returned
by vote() always equals the node's own pubkey and never the identity's DID.
Evaluating the embedded vote() on a provisioned governance identity with a
healthy rpc shows the opposite: _voter_id prefers the stored DID, so both
the result and the persisted row carry the DID, not the pubkey (the
repository's own test test_voter_id_pinned_to_node_pubkey expects the
pubkey). -/
theorem vote_voter_id_is_did_not_node_pubkey :
    (ArchonService.vote cfgOffline envFix storeFix "poll-1" "yes" "needed").1.voterIdOf
        = some "did:cid:0a1b2c3d4e5f60718293a4b5c6d7e8f90a1b2c3d"
    ∧ ((ArchonService.vote cfgOffline envFix storeFix "poll-1" "yes" "needed").2.votes.map
        (fun v => v.voter_id)) = ["did:cid:0a1b2c3d4e5f60718293a4b5c6d7e8f90a1b2c3d"]
    ∧ ArchonService.ourNodePubkey envFix = pubkeyFix
    ∧ ArchonService.voterId envFix storeFix ≠ ArchonService.ourNodePubkey envFix := by
  decide

set_option maxRecDepth 1000000 in
/-- C2: the claim says upgrade("governance", bond_sats) with enough
bond_sats but a channel balance below bond_sats fails with "bond
verification failed" and reports local_balance_sats.  The embedded upgrade,
like the source method, takes no balance input at all (the method body never
calls the rpc), so with min bond 50000 the call upgrade("governance",
100000) succeeds and sets the tier no matter what the node's balance is
(the repository's own test test_bond_verification_fails_insufficient_balance
expects the failure). -/
theorem upgrade_succeeds_without_balance_check :
    (ArchonService.upgrade cfgOffline envFix storeBasicFix "governance" 100000).1
      = UpgradeResult.ok "did:cid:0a1b2c3d4e5f60718293a4b5c6d7e8f90a1b2c3d" "governance"
    ∧ ((ArchonService.upgrade cfgOffline envFix storeBasicFix "governance"
          100000).2.identity.map (fun i => i.governance_tier)) = some "governance" := by
  decide

set_option maxRecDepth 1000000 in
/-- C3: with the network enabled and the gateway provision call failing
(raising, or answering without a DID), provision returns ok with
source="local-fallback" and a locally generated DID — that part holds — but
the resulting database state, shown here in full, records nothing else: the
store schema of the source has no outbox table, so no pending outbox entry
with operation "provision" is queued (the repository's own test
test_outbox_queuing_and_processing expects one). -/
theorem provision_gateway_failure_local_fallback :
    ArchonService.provision cfgNetFix envFix Store.empty false ""
      = (ProvisionResult.okNew "did:cid:02ababababababababababababababababababababababab"
           "local-fallback" "basic" "",
         ⟨some ⟨"did:cid:02ababababababababababababababababababababababab", "basic",
            "active", "local-fallback", "", 1000, 1000⟩, [], [], []⟩)
    ∧ ArchonService.provision cfgNetFix envGwNoDid Store.empty false ""
      = (ProvisionResult.okNew "did:cid:02ababababababababababababababababababababababab"
           "local-fallback" "basic" "",
         ⟨some ⟨"did:cid:02ababababababababababababababababababababababab", "basic",
            "active", "local-fallback", "", 1000, 1000⟩, [], [], []⟩) := by
  decide

set_option maxRecDepth 1000000 in
/-- C4: the claim says an http URL passes validation only for host
localhost or 127.0.0.1 and that any other http host forces the service
offline.  The embedded validator, like the source's _is_valid_gateway_url,
only checks scheme ∈ {http, https} and a nonempty netloc/hostname, so
http://example.com/api and http://10.0.0.1/api both pass and a service
constructed with network_enabled=true keeps the network on (the repository's
own test test_gateway_rejects_private_ips expects both to be rejected). -/
theorem gateway_url_validation_accepts_http_nonlocal :
    ArchonService.isValidGatewayUrl "http://example.com/api" = true
    ∧ ArchonService.isValidGatewayUrl "http://10.0.0.1/api" = true
    ∧ urlparse "http://example.com/api" = ⟨"http", "example.com", "example.com"⟩
    ∧ ArchonService.initConfig "http://example.com/api" true 50000
        = ⟨"http://example.com/api", true, 50000, true⟩ := by
  decide

/-- C5: the claim says every Service method reachable from the command
surface returns a structured result dictionary and no exception escapes.
The command facade registers hive-archon-sign-message and
hive-archon-process-outbox, whose handlers invoke service.sign_message and
service.process_outbox, but class ArchonService defines no such methods, so
those calls raise AttributeError instead of returning a dict (the
repository's own tests test_sign_message_success and
test_outbox_queuing_and_processing call both methods). -/
theorem plugin_invokes_missing_service_methods :
    "sign_message" ∈ pluginServiceCalls ∧ "sign_message" ∉ archonServiceMethods
    ∧ "process_outbox" ∈ pluginServiceCalls
    ∧ "process_outbox" ∉ archonServiceMethods := by
  decide

/-! Helper lemmas shared by the service-level theorems. -/

/-- Refreshing a poll's expiry state only ever touches the polls table. -/
lemma refreshPollState_votes (env : Env) (s : Store) (p : Poll) :
    (ArchonService.refreshPollState env s p).2.votes = s.votes := by
  unfold ArchonService.refreshPollState
  split
  · dsimp only
    cases ArchonStore.getPoll (ArchonStore.setPollStatus s p.poll_id "completed" env.now)
        p.poll_id <;> simp [ArchonStore.setPollStatus]
  · rfl

/-- Refreshing a poll's expiry state leaves the identity row unchanged. -/
lemma refreshPollState_identity (env : Env) (s : Store) (p : Poll) :
    (ArchonService.refreshPollState env s p).2.identity = s.identity := by
  unfold ArchonService.refreshPollState
  split
  · dsimp only
    cases ArchonStore.getPoll (ArchonStore.setPollStatus s p.poll_id "completed" env.now)
        p.poll_id <;> simp [ArchonStore.setPollStatus]
  · rfl

/-- The voter id is a function of the identity row alone. -/
lemma voterId_congr (env : Env) (s t : Store) (h : t.identity = s.identity) :
    ArchonService.voterId env t = ArchonService.voterId env s := by
  unfold ArchonService.voterId
  rw [h]

/-- INSERT-OR-IGNORE is a no-op returning false when a row for the same
(poll_id, voter_id) already exists. -/
lemma addVote_dup (s : Store) (vid pid voter c r : String) (t : Int) (sig : String)
    (h : ∃ v ∈ s.votes, v.poll_id = pid ∧ v.voter_id = voter) :
    ArchonStore.addVote s vid pid voter c r t sig = (false, s) := by
  obtain ⟨v, hv, hvp, hvv⟩ := h
  unfold ArchonStore.addVote
  rw [if_pos]
  exact List.any_eq_true.mpr ⟨v, hv, by simp [hvp, hvv]⟩

/-- add_vote preserves pairwise distinctness of (poll_id, voter_id). -/
lemma addVote_pairwise (s : Store) (vid pid voter c r : String) (t : Int) (sig : String)
    (hpw : s.votes.Pairwise (fun a b => ¬(a.poll_id = b.poll_id ∧ a.voter_id = b.voter_id))) :
    (ArchonStore.addVote s vid pid voter c r t sig).2.votes.Pairwise
      (fun a b => ¬(a.poll_id = b.poll_id ∧ a.voter_id = b.voter_id)) := by
  unfold ArchonStore.addVote
  by_cases hany : s.votes.any (fun v =>
      (v.poll_id == pid && v.voter_id == voter) || v.vote_id == vid) = true
  · rw [if_pos hany]; exact hpw
  · rw [if_neg hany]
    refine List.pairwise_append.mpr ⟨hpw, List.pairwise_singleton _ _, ?_⟩
    intro a ha b hb
    simp only [List.mem_singleton] at hb
    subst hb
    rintro ⟨h1, h2⟩
    exact hany (List.any_eq_true.mpr ⟨a, ha, by simp [h1, h2]⟩)

/-- C6: provision() twice with force=false is idempotent: whenever the first
call succeeds and the second label passes validation, the second call
returns already_provisioned=true with the same did, governance_tier and
source as the first call, and leaves the whole store (in particular the
identity row) unchanged. -/
theorem provision_twice_already_provisioned (cfg : Config) (env1 env2 : Env)
    (s : Store) (label1 label2 : String)
    (h1 : (ArchonService.provision cfg env1 s false label1).1.isOk = true)
    (h2 : (strTrim label2).length ≤ ArchonService.MAX_LABEL_LEN) :
    (ArchonService.provision cfg env2 (ArchonService.provision cfg env1 s false label1).2
        false label2).1.alreadyProvisioned = true
    ∧ (ArchonService.provision cfg env2 (ArchonService.provision cfg env1 s false label1).2
        false label2).1.didOf = (ArchonService.provision cfg env1 s false label1).1.didOf
    ∧ (ArchonService.provision cfg env2 (ArchonService.provision cfg env1 s false label1).2
        false label2).1.tierOf = (ArchonService.provision cfg env1 s false label1).1.tierOf
    ∧ (ArchonService.provision cfg env2 (ArchonService.provision cfg env1 s false label1).2
        false label2).1.sourceOf
      = (ArchonService.provision cfg env1 s false label1).1.sourceOf
    ∧ (ArchonService.provision cfg env2 (ArchonService.provision cfg env1 s false label1).2
        false label2).2 = (ArchonService.provision cfg env1 s false label1).2 := by
  have h2' : ¬ ((strTrim label2).length > ArchonService.MAX_LABEL_LEN) := not_lt.mpr h2
  by_cases hl1 : (strTrim label1).length > ArchonService.MAX_LABEL_LEN
  · simp [ArchonService.provision, hl1, ProvisionResult.isOk] at h1
  · cases hid : s.identity with
    | some i =>
        simp [ArchonService.provision, hl1, h2', hid, ProvisionResult.alreadyProvisioned,
          ProvisionResult.didOf, ProvisionResult.tierOf, ProvisionResult.sourceOf]
    | none =>
        simp [ArchonService.provision, hl1, h2', hid, ArchonStore.upsertIdentity,
          ProvisionResult.alreadyProvisioned, ProvisionResult.didOf,
          ProvisionResult.tierOf, ProvisionResult.sourceOf]

set_option maxRecDepth 1000000 in
/-- Witness for the provision idempotence theorem: a concrete offline run on
the empty database with empty labels. -/
theorem provision_twice_already_provisioned_witness :
    (ArchonService.provision cfgOffline envFix
        (ArchonService.provision cfgOffline envFix Store.empty false "").2
        false "").1.alreadyProvisioned = true
    ∧ (ArchonService.provision cfgOffline envFix
        (ArchonService.provision cfgOffline envFix Store.empty false "").2
        false "").1.didOf
      = (ArchonService.provision cfgOffline envFix Store.empty false "").1.didOf
    ∧ (ArchonService.provision cfgOffline envFix
        (ArchonService.provision cfgOffline envFix Store.empty false "").2
        false "").1.tierOf
      = (ArchonService.provision cfgOffline envFix Store.empty false "").1.tierOf
    ∧ (ArchonService.provision cfgOffline envFix
        (ArchonService.provision cfgOffline envFix Store.empty false "").2
        false "").1.sourceOf
      = (ArchonService.provision cfgOffline envFix Store.empty false "").1.sourceOf
    ∧ (ArchonService.provision cfgOffline envFix
        (ArchonService.provision cfgOffline envFix Store.empty false "").2
        false "").2 = (ArchonService.provision cfgOffline envFix Store.empty false "").2 :=
  provision_twice_already_provisioned cfgOffline envFix envFix Store.empty "" ""
    (by decide) (by decide)

/-- An existing vote row used by the duplicate-vote fixtures. -/
def voteRowFix : Vote :=
  ⟨"vid-1", "poll-1", "did:cid:0a1b2c3d4e5f60718293a4b5c6d7e8f90a1b2c3d", "yes",
    "needed", 1000, "zbase-sig"⟩

/-- The governance store with one vote already recorded on poll-1. -/
def storeVotedFix : Store := ⟨some identityFix, [], [pollFix], [voteRowFix]⟩

/-- C7: at most one vote row per (poll_id, voter_id).  First, add_vote on a
store that already holds a row for the pair returns false and leaves the
store unchanged (it never raises: its result is the boolean).  Second,
add_vote preserves pairwise distinctness of (poll_id, voter_id), so the
store invariant holds forever.  Third, a vote() call by a voter who already
voted on the poll never succeeds and leaves the vote rows exactly as they
were.  Fourth, when such a duplicate call passes every earlier check (tier,
capacity, argument validation, an active refreshed poll, a valid choice and
a signature), it returns exactly the error "vote already exists for this
voter and poll", still without touching the rows. -/
theorem vote_unique_per_poll_and_voter :
    (∀ (s : Store) (vid pid voter c r : String) (t : Int) (sig : String),
       (∃ v ∈ s.votes, v.poll_id = pid ∧ v.voter_id = voter) →
       ArchonStore.addVote s vid pid voter c r t sig = (false, s))
    ∧ (∀ (s : Store) (vid pid voter c r : String) (t : Int) (sig : String),
       s.votes.Pairwise (fun a b => ¬(a.poll_id = b.poll_id ∧ a.voter_id = b.voter_id)) →
       (ArchonStore.addVote s vid pid voter c r t sig).2.votes.Pairwise
         (fun a b => ¬(a.poll_id = b.poll_id ∧ a.voter_id = b.voter_id)))
    ∧ (∀ (cfg : Config) (env : Env) (s : Store) (pid c r : String),
       (∃ v ∈ s.votes, v.poll_id = pid ∧ v.voter_id = ArchonService.voterId env s) →
       (ArchonService.vote cfg env s pid c r).1.isOk = false
       ∧ (ArchonService.vote cfg env s pid c r).2.votes = s.votes)
    ∧ (∀ (cfg : Config) (env : Env) (s : Store) (pid c r : String) (p : Poll)
         (sig : String),
       ArchonService.requireGovernance s = none →
       ¬ ArchonStore.countTotalVotes s ≥ ArchonService.MAX_TOTAL_VOTES →
       pid.isEmpty = false →
       (strTrim c).isEmpty = false →
       ¬ (strTrim r).length > ArchonService.MAX_REASON_LEN →
       ArchonStore.getPoll s pid = some p →
       (ArchonService.refreshPollState env s p).1.status = "active" →
       ((ArchonService.refreshPollState env s p).1.options.contains (strTrim c)) = true →
       ArchonService.signRequired env (ArchonService.voteCanonical pid
           (ArchonService.voterId env (ArchonService.refreshPollState env s p).2)
           (strTrim c) (strTrim r) env.now) = some sig →
       (∃ v ∈ s.votes, v.poll_id = pid ∧ v.voter_id = ArchonService.voterId env s) →
       (ArchonService.vote cfg env s pid c r).1
         = VoteResult.error "vote already exists for this voter and poll"
       ∧ (ArchonService.vote cfg env s pid c r).2.votes = s.votes) := by
  refine ⟨fun s vid pid voter c r t sig h => addVote_dup s vid pid voter c r t sig h,
    fun s vid pid voter c r t sig h => addVote_pairwise s vid pid voter c r t sig h,
    ?_, ?_⟩
  rintro cfg env s pid c r ⟨v, hv, hvp, hvv⟩
  unfold ArchonService.vote
  dsimp only
  split
  · exact ⟨rfl, rfl⟩
  split
  · exact ⟨rfl, rfl⟩
  split
  · exact ⟨rfl, rfl⟩
  split
  · exact ⟨rfl, rfl⟩
  split
  · exact ⟨rfl, rfl⟩
  split
  · exact ⟨rfl, rfl⟩
  case _ p heqPoll =>
    have hS : (ArchonService.refreshPollState env s p).2.votes = s.votes :=
      refreshPollState_votes env s p
    have hI : ArchonService.voterId env (ArchonService.refreshPollState env s p).2
        = ArchonService.voterId env s :=
      voterId_congr env s _ (refreshPollState_identity env s p)
    have hdup' : ∃ w ∈ (ArchonService.refreshPollState env s p).2.votes,
        w.poll_id = pid ∧ w.voter_id
          = ArchonService.voterId env (ArchonService.refreshPollState env s p).2 :=
      ⟨v, by rw [hS]; exact hv, hvp, by rw [hI]; exact hvv⟩
    have hAdd : ∀ (vid cc rr sig : String) (tt : Int),
        ArchonStore.addVote (ArchonService.refreshPollState env s p).2 vid pid
          (ArchonService.voterId env (ArchonService.refreshPollState env s p).2) cc rr tt sig
          = (false, (ArchonService.refreshPollState env s p).2) :=
      fun vid cc rr sig tt => addVote_dup _ vid pid _ cc rr tt sig hdup'
    split
    · exact ⟨rfl, hS⟩
    split
    · exact ⟨rfl, hS⟩
    split
    · exact ⟨rfl, hS⟩
    simp only [hAdd]
    exact ⟨rfl, hS⟩
  rintro cfg env s pid c r p sig hgov hcap hne hch hr hfind hact hopt hsig ⟨v, hv, hvp, hvv⟩
  have hS : (ArchonService.refreshPollState env s p).2.votes = s.votes :=
    refreshPollState_votes env s p
  have hI : ArchonService.voterId env (ArchonService.refreshPollState env s p).2
      = ArchonService.voterId env s :=
    voterId_congr env s _ (refreshPollState_identity env s p)
  have hdup' : ∃ w ∈ (ArchonService.refreshPollState env s p).2.votes,
      w.poll_id = pid ∧ w.voter_id
        = ArchonService.voterId env (ArchonService.refreshPollState env s p).2 :=
    ⟨v, by rw [hS]; exact hv, hvp, by rw [hI]; exact hvv⟩
  have hAdd : ∀ (vid cc rr sg : String) (tt : Int),
      ArchonStore.addVote (ArchonService.refreshPollState env s p).2 vid pid
        (ArchonService.voterId env (ArchonService.refreshPollState env s p).2) cc rr tt sg
        = (false, (ArchonService.refreshPollState env s p).2) :=
    fun vid cc rr sg tt => addVote_dup _ vid pid _ cc rr tt sg hdup'
  unfold ArchonService.vote
  dsimp only
  simp only [hgov, hne, hch, Bool.false_eq_true, if_false, hfind, if_neg hcap, if_neg hr]
  rw [if_neg (by simp [hact])]
  rw [if_neg (by rw [hopt]; simp)]
  simp only [hsig]
  simp only [hAdd]
  exact ⟨rfl, hS⟩

set_option maxRecDepth 1000000 in
/-- Witness for the vote uniqueness theorem: a concrete store holding one
ballot on poll-1 by the provisioned identity; a duplicate insert is refused
and a duplicate vote() call fails without touching the rows. -/
theorem vote_unique_per_poll_and_voter_witness :
    ArchonStore.addVote storeVotedFix "vid-2" "poll-1"
        "did:cid:0a1b2c3d4e5f60718293a4b5c6d7e8f90a1b2c3d" "no" "" 1001 "sig2"
      = (false, storeVotedFix)
    ∧ (ArchonStore.addVote storeVotedFix "vid-2" "poll-1"
        "did:cid:0a1b2c3d4e5f60718293a4b5c6d7e8f90a1b2c3d" "no" "" 1001
        "sig2").2.votes.Pairwise
        (fun a b => ¬(a.poll_id = b.poll_id ∧ a.voter_id = b.voter_id))
    ∧ ((ArchonService.vote cfgOffline envFix storeVotedFix "poll-1" "yes" "").1.isOk = false
       ∧ (ArchonService.vote cfgOffline envFix storeVotedFix "poll-1" "yes" "").2.votes
          = storeVotedFix.votes)
    ∧ ((ArchonService.vote cfgOffline envFix storeVotedFix "poll-1" "yes" "").1
         = VoteResult.error "vote already exists for this voter and poll"
       ∧ (ArchonService.vote cfgOffline envFix storeVotedFix "poll-1" "yes" "").2.votes
          = storeVotedFix.votes) :=
  ⟨vote_unique_per_poll_and_voter.1 storeVotedFix "vid-2" "poll-1"
      "did:cid:0a1b2c3d4e5f60718293a4b5c6d7e8f90a1b2c3d" "no" "" 1001 "sig2" (by decide),
   vote_unique_per_poll_and_voter.2.1 storeVotedFix "vid-2" "poll-1"
      "did:cid:0a1b2c3d4e5f60718293a4b5c6d7e8f90a1b2c3d" "no" "" 1001 "sig2" (by decide),
   vote_unique_per_poll_and_voter.2.2.1 cfgOffline envFix storeVotedFix "poll-1" "yes" ""
      (by decide),
   vote_unique_per_poll_and_voter.2.2.2 cfgOffline envFix storeVotedFix "poll-1" "yes" ""
      pollFix "zbase-sig" (by decide) (by decide) (by decide) (by decide) (by decide)
      (by decide) (by decide) (by decide) (by decide) (by decide)⟩

/-- Auxiliary find?-through-map fact: updating the found row's status makes
the subsequent lookup return the updated row. -/
lemma find?_setStatus (l : List Poll) (pid st : String) (now : Int) (p : Poll)
    (h : l.find? (fun q => q.poll_id == pid) = some p) :
    (l.map (fun q => if q.poll_id == p.poll_id then
        { q with status := st, updated_at := now } else q)).find?
      (fun q => q.poll_id == pid)
      = some { p with status := st, updated_at := now } := by
  induction l with
  | nil => simp at h
  | cons hd tl ih =>
    by_cases hhd : (hd.poll_id == pid) = true
    · simp only [List.find?_cons, hhd] at h
      injection h with h'
      subst h'
      simp [List.find?_cons, hhd]
    · have hhd' : (hd.poll_id == pid) = false := Bool.eq_false_iff.mpr hhd
      simp only [List.find?_cons, hhd'] at h
      simp only [List.map_cons]
      have hkeep : ((if (hd.poll_id == p.poll_id) = true then
          { hd with status := st, updated_at := now } else hd).poll_id == pid) = false := by
        by_cases hmod : (hd.poll_id == p.poll_id) = true <;> simp [hmod, hhd']
      rw [List.find?_cons, hkeep]
      exact ih h

/-- Refreshing a loaded active poll past its deadline writes it back as
completed and returns the updated row. -/
lemma refreshPollState_expired (env : Env) (s : Store) (pid : String) (p : Poll)
    (hfind : ArchonStore.getPoll s pid = some p)
    (hst : p.status = "active") (hd : p.deadline ≤ env.now) :
    ArchonService.refreshPollState env s p
      = ({ p with status := "completed", updated_at := env.now },
         ArchonStore.setPollStatus s p.poll_id "completed" env.now) := by
  have hpid : p.poll_id = pid := by
    have h' : s.polls.find? (fun q => q.poll_id == pid) = some p := hfind
    have h2 := List.find?_some h'
    exact beq_iff_eq.mp h2
  unfold ArchonService.refreshPollState
  rw [if_pos (by simp [hst, hd])]
  dsimp only
  have hget : ArchonStore.getPoll (ArchonStore.setPollStatus s p.poll_id "completed" env.now)
      p.poll_id = some { p with status := "completed", updated_at := env.now } := by
    unfold ArchonStore.getPoll ArchonStore.setPollStatus
    dsimp only
    subst hpid
    exact find?_setStatus s.polls p.poll_id "completed" env.now p hfind
  rw [hget]

/-- Refreshing a completed poll changes nothing. -/
lemma refreshPollState_of_completed (env : Env) (s : Store) (p : Poll)
    (h : p.status = "completed") :
    ArchonService.refreshPollState env s p = (p, s) := by
  unfold ArchonService.refreshPollState
  rw [if_neg]
  simp [h]

/-- Rows surviving set_poll_status(·, "completed", ·) are completed or were
already present unchanged. -/
lemma mem_setPollStatus_completed (s : Store) (key : String) (now : Int) (q : Poll)
    (hq : q ∈ (ArchonStore.setPollStatus s key "completed" now).polls) :
    q.status = "completed" ∨ q ∈ s.polls := by
  unfold ArchonStore.setPollStatus at hq
  dsimp only at hq
  obtain ⟨p, hp, rfl⟩ := List.mem_map.mp hq
  by_cases hk : (p.poll_id == key) = true
  · left; rw [if_pos hk]
  · right; rw [if_neg hk]; exact hp

/-- Rows surviving an expiry refresh are completed or were already present. -/
lemma refreshPollState_mem_polls (env : Env) (s : Store) (p : Poll) (q : Poll)
    (hq : q ∈ (ArchonService.refreshPollState env s p).2.polls) :
    q.status = "completed" ∨ q ∈ s.polls := by
  unfold ArchonService.refreshPollState at hq
  split at hq
  · dsimp only at hq
    rcases hget : ArchonStore.getPoll (ArchonStore.setPollStatus s p.poll_id "completed"
        env.now) p.poll_id with _ | u <;> rw [hget] at hq <;>
      exact mem_setPollStatus_completed s p.poll_id env.now q hq
  · right; exact hq

/-- add_vote never touches the polls table. -/
lemma addVote_polls (s : Store) (vid pid voter c r : String) (t : Int) (sig : String) :
    (ArchonStore.addVote s vid pid voter c r t sig).2.polls = s.polls := by
  unfold ArchonStore.addVote; split <;> rfl

/-- Voting on a poll stored as completed can never succeed. -/
lemma vote_on_completed_not_ok (cfg : Config) (env : Env) (s : Store)
    (pid c r : String) (p : Poll)
    (hfind : ArchonStore.getPoll s pid = some p) (hst : p.status = "completed") :
    (ArchonService.vote cfg env s pid c r).1.isOk = false := by
  unfold ArchonService.vote
  dsimp only
  split
  · rfl
  split
  · rfl
  split
  · rfl
  split
  · rfl
  split
  · rfl
  split
  · rfl
  case _ p' heq =>
    have hp' : p' = p := by
      rw [hfind] at heq
      injection heq with h
      exact h.symm
    subst hp'
    rw [refreshPollState_of_completed env s p' hst]
    simp [hst, VoteResult.isOk]

/-- poll_status on an expired active poll reports completed. -/
lemma pollStatus_expired_reports_completed (env : Env) (s : Store) (pid : String) (p : Poll)
    (hne : pid.isEmpty = false)
    (hfind : ArchonStore.getPoll s pid = some p)
    (hst : p.status = "active") (hd : p.deadline ≤ env.now) :
    (ArchonService.pollStatus env s pid).1.statusOf = some "completed" := by
  unfold ArchonService.pollStatus
  dsimp only
  simp only [hne, Bool.false_eq_true, if_false, hfind]
  rw [refreshPollState_expired env s pid p hfind hst hd]
  simp [PollStatusResult.statusOf]

/-- vote on an expired active poll reports the refreshed completed status. -/
lemma vote_expired_reports_completed (cfg : Config) (env : Env) (s : Store)
    (pid c r : String) (p : Poll)
    (hgov : ArchonService.requireGovernance s = none)
    (hcap : ¬ ArchonStore.countTotalVotes s ≥ ArchonService.MAX_TOTAL_VOTES)
    (hne : pid.isEmpty = false)
    (hch : (strTrim c).isEmpty = false)
    (hr : ¬ (strTrim r).length > ArchonService.MAX_REASON_LEN)
    (hfind : ArchonStore.getPoll s pid = some p)
    (hst : p.status = "active") (hd : p.deadline ≤ env.now) :
    (ArchonService.vote cfg env s pid c r).1
      = VoteResult.errorStatus "poll is not active" "completed" := by
  unfold ArchonService.vote
  dsimp only
  simp only [hgov, hne, hch, Bool.false_eq_true, if_false, hfind, if_neg hcap, if_neg hr]
  rw [refreshPollState_expired env s pid p hfind hst hd]
  simp

/-- vote writes no poll status other than completed and creates no poll. -/
lemma vote_polls_status_monotone (cfg : Config) (env : Env) (s : Store)
    (pid c r : String) (q : Poll)
    (hq : q ∈ (ArchonService.vote cfg env s pid c r).2.polls) :
    q.status = "completed" ∨ q ∈ s.polls := by
  unfold ArchonService.vote at hq
  dsimp only at hq
  split at hq
  · right; exact hq
  split at hq
  · right; exact hq
  split at hq
  · right; exact hq
  split at hq
  · right; exact hq
  split at hq
  · right; exact hq
  split at hq
  · right; exact hq
  case _ p heq =>
    split at hq
    · exact refreshPollState_mem_polls env s p q hq
    split at hq
    · exact refreshPollState_mem_polls env s p q hq
    split at hq
    · exact refreshPollState_mem_polls env s p q hq
    split at hq
    · rw [addVote_polls] at hq
      exact refreshPollState_mem_polls env s p q hq
    · rw [addVote_polls] at hq
      exact refreshPollState_mem_polls env s p q hq

/-- poll_status writes no poll status other than completed. -/
lemma pollStatus_polls_status_monotone (env : Env) (s : Store) (pid : String) (q : Poll)
    (hq : q ∈ (ArchonService.pollStatus env s pid).2.polls) :
    q.status = "completed" ∨ q ∈ s.polls := by
  unfold ArchonService.pollStatus at hq
  dsimp only at hq
  split at hq
  · right; exact hq
  split at hq
  · right; exact hq
  case _ p heq =>
    exact refreshPollState_mem_polls env s p q hq

/-- prune transitions polls only to completed and otherwise deletes rows. -/
lemma prune_polls_status_monotone (env : Env) (s : Store) (d : Int) (q : Poll)
    (hq : q ∈ (ArchonService.prune env s d).2.polls) :
    q.status = "completed" ∨ q ∈ s.polls := by
  unfold ArchonService.prune at hq
  split at hq
  · right; exact hq
  · dsimp only at hq
    unfold ArchonStore.pruneCompletedPolls ArchonStore.completeExpiredPolls at hq
    dsimp only at hq
    have hq' := (List.mem_filter.mp hq).1
    obtain ⟨p, hp, rfl⟩ := List.mem_map.mp hq'
    by_cases he : ArchonStore.expiredActive env.now p = true
    · left; rw [if_pos he]
    · right; rw [if_neg he]; exact hp

/-- C8: the poll lifecycle.  A vote on a poll stored as completed never
succeeds.  A poll_status call on an active poll past its deadline reports
completed, and a vote call on it (when it reaches the status check) returns
the error "poll is not active" with status "completed" — the transition
happens on read.  Completed is terminal: vote, poll_status and prune leave
every surviving poll row either completed or exactly as it was, so none of
them ever moves a completed poll back to active. -/
theorem poll_completed_terminal_and_expiry_on_read :
    (∀ (cfg : Config) (env : Env) (s : Store) (pid c r : String) (p : Poll),
       ArchonStore.getPoll s pid = some p → p.status = "completed" →
       (ArchonService.vote cfg env s pid c r).1.isOk = false)
    ∧ (∀ (env : Env) (s : Store) (pid : String) (p : Poll),
       pid.isEmpty = false → ArchonStore.getPoll s pid = some p →
       p.status = "active" → p.deadline ≤ env.now →
       (ArchonService.pollStatus env s pid).1.statusOf = some "completed")
    ∧ (∀ (cfg : Config) (env : Env) (s : Store) (pid c r : String) (p : Poll),
       ArchonService.requireGovernance s = none →
       ¬ ArchonStore.countTotalVotes s ≥ ArchonService.MAX_TOTAL_VOTES →
       pid.isEmpty = false → (strTrim c).isEmpty = false →
       ¬ (strTrim r).length > ArchonService.MAX_REASON_LEN →
       ArchonStore.getPoll s pid = some p →
       p.status = "active" → p.deadline ≤ env.now →
       (ArchonService.vote cfg env s pid c r).1
         = VoteResult.errorStatus "poll is not active" "completed")
    ∧ (∀ (cfg : Config) (env : Env) (s : Store) (pid c r : String) (q : Poll),
       q ∈ (ArchonService.vote cfg env s pid c r).2.polls →
       q.status = "completed" ∨ q ∈ s.polls)
    ∧ (∀ (env : Env) (s : Store) (pid : String) (q : Poll),
       q ∈ (ArchonService.pollStatus env s pid).2.polls →
       q.status = "completed" ∨ q ∈ s.polls)
    ∧ (∀ (env : Env) (s : Store) (d : Int) (q : Poll),
       q ∈ (ArchonService.prune env s d).2.polls →
       q.status = "completed" ∨ q ∈ s.polls) :=
  ⟨vote_on_completed_not_ok,
   pollStatus_expired_reports_completed,
   vote_expired_reports_completed,
   vote_polls_status_monotone,
   pollStatus_polls_status_monotone,
   prune_polls_status_monotone⟩

/-- A poll already stored as completed. -/
def pollDoneFix : Poll :=
  ⟨"poll-c", "", "config", "Old poll", ["yes", "no"], "{}",
    "did:cid:0a1b2c3d4e5f60718293a4b5c6d7e8f90a1b2c3d", 900, "completed", 100, 900⟩

/-- An active poll whose deadline 500 lies before envFix.now = 1000. -/
def pollExpiredFix : Poll :=
  ⟨"poll-e", "", "ban", "Ban peer A", ["ban", "no-ban"], "{}",
    "did:cid:0a1b2c3d4e5f60718293a4b5c6d7e8f90a1b2c3d", 500, "active", 100, 100⟩

/-- Governance store holding the completed and the expired poll. -/
def storePollsFix : Store := ⟨some identityFix, [], [pollDoneFix, pollExpiredFix], []⟩

set_option maxRecDepth 1000000 in
/-- Witness for the poll lifecycle theorem: on a store with a completed poll
poll-c and an expired active poll poll-e, voting on poll-c fails, reading
poll-e reports completed, voting on poll-e reports the completed status, and
the three maintenance operations keep poll-c completed. -/
theorem poll_completed_terminal_and_expiry_on_read_witness :
    (ArchonService.vote cfgOffline envFix storePollsFix "poll-c" "yes" "").1.isOk = false
    ∧ (ArchonService.pollStatus envFix storePollsFix "poll-e").1.statusOf
        = some "completed"
    ∧ (ArchonService.vote cfgOffline envFix storePollsFix "poll-e" "ban" "").1
        = VoteResult.errorStatus "poll is not active" "completed"
    ∧ (pollDoneFix.status = "completed" ∨ pollDoneFix ∈ storePollsFix.polls)
    ∧ (pollDoneFix.status = "completed" ∨ pollDoneFix ∈ storePollsFix.polls)
    ∧ (pollDoneFix.status = "completed" ∨ pollDoneFix ∈ storePollsFix.polls) :=
  ⟨poll_completed_terminal_and_expiry_on_read.1 cfgOffline envFix storePollsFix
      "poll-c" "yes" "" pollDoneFix (by decide) (by decide),
   poll_completed_terminal_and_expiry_on_read.2.1 envFix storePollsFix "poll-e"
      pollExpiredFix (by decide) (by decide) (by decide) (by decide),
   poll_completed_terminal_and_expiry_on_read.2.2.1 cfgOffline envFix storePollsFix
      "poll-e" "ban" "" pollExpiredFix (by decide) (by decide) (by decide) (by decide)
      (by decide) (by decide) (by decide) (by decide),
   poll_completed_terminal_and_expiry_on_read.2.2.2.1 cfgOffline envFix storePollsFix
      "poll-c" "yes" "" pollDoneFix (by decide),
   poll_completed_terminal_and_expiry_on_read.2.2.2.2.1 envFix storePollsFix "poll-e"
      pollDoneFix (by decide),
   poll_completed_terminal_and_expiry_on_read.2.2.2.2.2 envFix storePollsFix 1
      pollDoneFix (by decide)⟩

/-- C9: prune(retention_days) with retention_days ≥ 1 first completes every
expired active poll and then deletes every completed poll with deadline
older than now − retention_days·86400 together with the votes that
reference it.  The returned counts are the number of polls transitioned to
completed and the number of polls deleted; afterwards no completed poll
older than the cutoff remains, and no vote row referencing a poll that was
(or became) completed and older than the cutoff remains. -/
theorem prune_removes_old_completed (env : Env) (s : Store) (retention_days : Int)
    (h : 1 ≤ retention_days) :
    (ArchonService.prune env s retention_days).1
      = PruneResult.ok
          (s.polls.countP (ArchonStore.expiredActive env.now) : Int)
          (s.polls.countP (fun p => ArchonStore.completedBefore
              (env.now - retention_days * 86400)
              (if ArchonStore.expiredActive env.now p then
                { p with status := "completed", updated_at := env.now } else p)) : Int)
          retention_days
    ∧ (∀ q ∈ (ArchonService.prune env s retention_days).2.polls,
        ¬ (q.status = "completed" ∧ q.deadline < env.now - retention_days * 86400))
    ∧ (∀ v ∈ (ArchonService.prune env s retention_days).2.votes,
        ∀ p ∈ s.polls, p.poll_id = v.poll_id →
        ¬ ((p.status = "completed" ∨ (p.status = "active" ∧ p.deadline ≤ env.now))
            ∧ p.deadline < env.now - retention_days * 86400)) := by
  have hnot : ¬ (retention_days < 1) := not_lt.mpr h
  unfold ArchonService.prune
  rw [if_neg hnot]
  dsimp only
  unfold ArchonStore.pruneCompletedPolls ArchonStore.completeExpiredPolls
  dsimp only
  refine ⟨?_, ?_, ?_⟩
  · simp only [PruneResult.ok.injEq, Int.natCast_inj, and_true, true_and]
    constructor
    · rw [List.countP_eq_length_filter]
    · rw [List.filter_map, List.length_map, List.countP_eq_length_filter]
      rfl
  · intro q hq
    have hpred := (List.mem_filter.mp hq).2
    simp only [Bool.not_eq_eq_eq_not, Bool.not_true, ArchonStore.completedBefore,
      Bool.and_eq_false_iff] at hpred
    rintro ⟨h1, h2⟩
    rcases hpred with hp | hp
    · rw [h1] at hp; simp at hp
    · rw [decide_eq_false_iff_not] at hp; exact hp h2
  · intro v hv p hp hpid
    rintro ⟨hdoom, hold⟩
    have hkeep := (List.mem_filter.mp hv).2
    rw [Bool.not_eq_eq_eq_not, Bool.not_true] at hkeep
    have hmem : (if ArchonStore.expiredActive env.now p then
          { p with status := "completed", updated_at := env.now } else p)
        ∈ (s.polls.map (fun q => if ArchonStore.expiredActive env.now q then
            { q with status := "completed", updated_at := env.now } else q)).filter
          (ArchonStore.completedBefore (env.now - retention_days * 86400)) := by
      refine List.mem_filter.mpr ⟨List.mem_map.mpr ⟨p, hp, rfl⟩, ?_⟩
      rcases hdoom with hc | ⟨ha, hd⟩
      · have hexp : ArchonStore.expiredActive env.now p = false := by
          simp [ArchonStore.expiredActive, hc]
        rw [hexp]
        simp [ArchonStore.completedBefore, hc, hold]
      · have hexp : ArchonStore.expiredActive env.now p = true := by
          simp [ArchonStore.expiredActive, ha, hd]
        rw [hexp]
        simp [ArchonStore.completedBefore, hold]
    have hid : v.poll_id ∈ ((s.polls.map (fun q => if ArchonStore.expiredActive env.now q then
            { q with status := "completed", updated_at := env.now } else q)).filter
          (ArchonStore.completedBefore (env.now - retention_days * 86400))).map
        (fun p => p.poll_id) := by
      refine List.mem_map.mpr ⟨_, hmem, ?_⟩
      rw [← hpid]
      by_cases he : ArchonStore.expiredActive env.now p = true <;> simp [he]
    have := List.elem_eq_true_of_mem hid
    rw [List.contains] at hkeep
    rw [this] at hkeep
    exact Bool.true_eq_false.mp hkeep

/-- A still-running poll with a far future deadline. -/
def pollRecentFix : Poll :=
  ⟨"poll-r", "", "config", "New poll", ["yes", "no"], "{}",
    "did:cid:0a1b2c3d4e5f60718293a4b5c6d7e8f90a1b2c3d", 999999999, "active", 100, 100⟩

/-- An old ballot on the long-completed poll poll-c. -/
def voteOldFix : Vote :=
  ⟨"vid-old", "poll-c", "did:cid:0a1b2c3d4e5f60718293a4b5c6d7e8f90a1b2c3d", "yes",
    "", 800, "zbase-sig"⟩

/-- A ballot on the still-running poll poll-r. -/
def voteNewFix : Vote :=
  ⟨"vid-new", "poll-r", "did:cid:0a1b2c3d4e5f60718293a4b5c6d7e8f90a1b2c3d", "yes",
    "", 999500, "zbase-sig"⟩

/-- Store for the prune witness: two prunable polls, one recent poll, one
vote on each side of the cutoff. -/
def storePruneFix : Store :=
  ⟨some identityFix, [], [pollDoneFix, pollExpiredFix, pollRecentFix],
    [voteOldFix, voteNewFix]⟩

/-- Environment far in the future of the two old polls. -/
def envLateFix : Env := { envFix with now := 1000000 }

set_option maxRecDepth 1000000 in
/-- Witness for the prune theorem: with now = 1000000 and retention 1 day,
the expired poll is completed (count 1), the two old completed polls are
deleted (count 2), the surviving poll poll-r is not an old completed poll,
and the surviving vote on poll-r references no doomed poll. -/
theorem prune_removes_old_completed_witness :
    (ArchonService.prune envLateFix storePruneFix 1).1
      = PruneResult.ok
          (storePruneFix.polls.countP (ArchonStore.expiredActive envLateFix.now) : Int)
          (storePruneFix.polls.countP (fun p => ArchonStore.completedBefore
              (envLateFix.now - 1 * 86400)
              (if ArchonStore.expiredActive envLateFix.now p then
                { p with status := "completed", updated_at := envLateFix.now } else p)) : Int)
          1
    ∧ ¬ (pollRecentFix.status = "completed"
          ∧ pollRecentFix.deadline < envLateFix.now - 1 * 86400)
    ∧ ¬ ((pollRecentFix.status = "completed"
          ∨ (pollRecentFix.status = "active" ∧ pollRecentFix.deadline ≤ envLateFix.now))
          ∧ pollRecentFix.deadline < envLateFix.now - 1 * 86400) :=
  ⟨(prune_removes_old_completed envLateFix storePruneFix 1 (by decide)).1,
   (prune_removes_old_completed envLateFix storePruneFix 1 (by decide)).2.1
      pollRecentFix (by decide),
   (prune_removes_old_completed envLateFix storePruneFix 1 (by decide)).2.2
      voteNewFix (by decide) pollRecentFix (by decide) (by decide)⟩

/-- C10: my_votes clamps every integer limit above 500 silently down to 500
(same result as limit=500, ok, at most 500 rows), and it returns an error
exactly when the limit argument is not an int by Python's isinstance (bools
count as ints) or is non-positive. -/
theorem my_votes_clamps_limit :
    (∀ (env : Env) (s : Store) (n : Int), 500 < n →
       ArchonService.myVotes env s (ArchonService.PyVal.int n)
         = ArchonService.myVotes env s (ArchonService.PyVal.int 500)
       ∧ (ArchonService.myVotes env s (ArchonService.PyVal.int n)).isOk = true
       ∧ (ArchonService.myVotes env s (ArchonService.PyVal.int n)).votesOf.length ≤ 500)
    ∧ (∀ (env : Env) (s : Store) (v : ArchonService.PyVal),
       (ArchonService.myVotes env s v).isOk = false
         ↔ (v.isInstInt = false ∨ v.toInt ≤ 0)) := by
  constructor
  · intro env s n hn
    have hpos : ¬ (n ≤ 0) := by omega
    have h500 : ¬ ((500 : Int) ≤ 0) := by omega
    have hgt : n > 500 := hn
    have hngt : ¬ ((500 : Int) > 500) := by omega
    refine ⟨?_, ?_, ?_⟩
    · simp [ArchonService.myVotes, ArchonService.PyVal.isInstInt,
        ArchonService.PyVal.toInt, hpos, h500, hgt, hngt]
    · simp [ArchonService.myVotes, ArchonService.PyVal.isInstInt,
        ArchonService.PyVal.toInt, hpos, hgt, MyVotesResult.isOk]
    · simp only [ArchonService.myVotes, ArchonService.PyVal.isInstInt,
        ArchonService.PyVal.toInt, hpos, hgt, Bool.not_true, Bool.false_or,
        decide_eq_true_eq, if_pos, if_neg, ite_true, ite_false, if_false,
        MyVotesResult.votesOf, ArchonStore.listVotesForVoter]
      calc (List.take (Int.toNat 500) (ArchonStore.sortByVotedAtDesc
              (List.filter (fun v => v.voter_id == ArchonService.voterId env s
                && s.polls.any fun p => p.poll_id == v.poll_id) s.votes))).length
          ≤ Int.toNat 500 := List.length_take_le _ _
        _ ≤ 500 := by omega
  · intro env s v
    cases v with
    | int n =>
      by_cases hn : n ≤ 0 <;>
        simp [ArchonService.myVotes, ArchonService.PyVal.isInstInt,
          ArchonService.PyVal.toInt, hn, MyVotesResult.isOk]
    | bool b =>
      cases b <;>
        simp [ArchonService.myVotes, ArchonService.PyVal.isInstInt,
          ArchonService.PyVal.toInt, MyVotesResult.isOk]
    | str t =>
      simp [ArchonService.myVotes, ArchonService.PyVal.isInstInt,
        ArchonService.PyVal.toInt, MyVotesResult.isOk]
    | noneVal =>
      simp [ArchonService.myVotes, ArchonService.PyVal.isInstInt,
        ArchonService.PyVal.toInt, MyVotesResult.isOk]

set_option maxRecDepth 1000000 in
/-- Witness for the my_votes clamp theorem: limit 501 on the concrete voted
store behaves as limit 500, and a string limit is reported as an error. -/
theorem my_votes_clamps_limit_witness :
    (ArchonService.myVotes envFix storeVotedFix (ArchonService.PyVal.int 501)
       = ArchonService.myVotes envFix storeVotedFix (ArchonService.PyVal.int 500)
     ∧ (ArchonService.myVotes envFix storeVotedFix
         (ArchonService.PyVal.int 501)).isOk = true
     ∧ (ArchonService.myVotes envFix storeVotedFix
         (ArchonService.PyVal.int 501)).votesOf.length ≤ 500)
    ∧ ((ArchonService.myVotes envFix storeVotedFix
          (ArchonService.PyVal.str "fifty")).isOk = false
        ↔ ((ArchonService.PyVal.str "fifty").isInstInt = false
            ∨ (ArchonService.PyVal.str "fifty").toInt ≤ 0)) :=
  ⟨my_votes_clamps_limit.1 envFix storeVotedFix 501 (by decide),
   my_votes_clamps_limit.2 envFix storeVotedFix (ArchonService.PyVal.str "fifty")⟩
